import Mathlib

/-!
Shallow embedding of the pamsai chat-widget variants.

The repository contains three Angular widget variants and two HTTP service
classes.  Each TypeScript method is translated into a pure Lean function:
the synchronous part of a submission returns the new component state together
with the outbound request it issues (`none` when no request is made), and the
`subscribe` callbacks become explicit handler functions applied to an abstract
HTTP result.
-/

/-- Whitespace test used by the embedding of JavaScript trim
(the common ASCII whitespace characters). -/
def isWs (c : Char) : Bool :=
  c == ' ' || c == '\t' || c == '\n' || c == '\r'

/-- Embedding of String.prototype.trim on the character list: remove leading
and trailing whitespace. -/
def trimList (l : List Char) : List Char :=
  ((l.dropWhile isWs).reverse.dropWhile isWs).reverse

/-- String.prototype.trim lifted to Lean strings. -/
def trimStr (s : String) : String :=
  ⟨trimList s.data⟩

/-- JSON body of an outbound chat request: the message field is always
present, the debug field may be absent. -/
structure Payload where
  message : String
  debug : Option Bool
deriving DecidableEq

/-- An outbound HTTP POST request as built by the services. -/
structure Request where
  url : String
  payload : Payload
  headers : List (String × String)
deriving DecidableEq

/-- Response body of the chat endpoint (chat.service.ts ChatResponse).
The answer field may be absent in a malformed body; the diagnostic
used field is an opaque blob modelled as a string. -/
structure ChatResponse where
  answer : Option String
  used : Option String
deriving DecidableEq

/-- The HttpErrorResponse delivered to an error callback; its body
(err.error in the code) is modelled as an opaque optional string. -/
structure HttpError where
  error : Option String
deriving DecidableEq

/-- Outcome of the single outbound HTTP call. -/
inductive HttpResult where
  | success : ChatResponse → HttpResult
  | failure : HttpError → HttpResult
deriving DecidableEq

/-- The backend endpoint shared by all variants. -/
def apiUrl : String := "http://127.0.0.1:8001/chat"

/-- Embedding of ChatService.send (pams-chat-ui chat.service.ts lines 19-21).
The TypeScript default parameter debug = false is modelled by an Option
argument: none means the caller omitted the argument. -/
def ChatService.send (message : String) (debug : Option Bool) : Request :=
  ⟨apiUrl, ⟨message, some (debug.getD false)⟩, []⟩

/-- Embedding of ChatApiService.chat (second class in chat/chat.component.ts
source, lines 50-56): same body, with an explicit content-type header. -/
def ChatApiService.chat (message : String) (debug : Option Bool) : Request :=
  ⟨"http://127.0.0.1:8001" ++ "/chat", ⟨message, some (debug.getD false)⟩,
   [("Content-Type", "application/json; charset=utf-8")]⟩

/-- Embedding of the unnamed-variant ChatService.ask (src/unnamed/part_000):
posts only the message, no debug field. -/
def ChatServiceV0.ask (message : String) : Request :=
  ⟨apiUrl, ⟨message, none⟩, []⟩

/-- Message roles of the full-transcript widget (src/unnamed/part_001). -/
inductive Role where
  | user
  | assistant
deriving DecidableEq

/-- A transcript message of the full-transcript widget. -/
structure Msg where
  role : Role
  text : String
deriving DecidableEq

/-- Component state of the full-transcript AppComponent
(src/unnamed/part_001 lines 39-42). -/
structure AppState where
  input : String
  loading : Bool
  messages : List Msg
  lastUsed : Option String
deriving DecidableEq

/-- Synchronous part of AppComponent.send (part_001 lines 46-54): trim the
draft, return unchanged with no request when the trimmed draft is empty,
otherwise push the user message, clear the draft, raise the loading flag and
issue one request with debug set to true.  Note the method itself contains no
check of the loading flag. -/
def AppComponent.send (s : AppState) : AppState × Option Request :=
  let text := trimStr s.input
  if text = "" then (s, none)
  else
    ({ input := "", loading := true,
       messages := s.messages ++ [⟨Role.user, text⟩],
       lastUsed := s.lastUsed },
     some (ChatService.send text (some true)))

/-- The next callback of AppComponent.send (part_001 lines 55-59). -/
def AppComponent.handleNext (s : AppState) (res : ChatResponse) : AppState :=
  { s with messages := s.messages ++ [⟨Role.assistant, res.answer.getD "—"⟩],
           lastUsed := res.used,
           loading := false }

/-- The error callback of AppComponent.send (part_001 lines 60-64). -/
def AppComponent.handleError (s : AppState) (e : HttpError) : AppState :=
  { s with messages := s.messages ++ [⟨Role.assistant, "Erreur API"⟩],
           lastUsed := e.error,
           loading := false }

/-- A whole send cycle of the full-transcript widget: the synchronous part
followed, when a request was issued, by the callback selected by the HTTP
outcome.  Both callbacks are installed (part_001 lines 54-65), so the cycle
always yields a plain state and never an unhandled fault. -/
def AppComponent.sendCycle (s : AppState) (r : HttpResult) :
    AppState × Option Request :=
  match AppComponent.send s with
  | (s₁, none) => (s₁, none)
  | (s₁, some req) =>
    match r with
    | HttpResult.success res => (AppComponent.handleNext s₁ res, some req)
    | HttpResult.failure e => (AppComponent.handleError s₁ e, some req)

/-- The submission pathway of the template (part_001 lines 23-30): the form
submits through its only submit control, whose disabled attribute is bound to
loading, so a form submission reaches the send method only while the loading
flag is false. -/
def AppComponent.uiSubmit (s : AppState) : AppState × Option Request :=
  if s.loading then (s, none) else AppComponent.send s

/-- Message roles of the ChatComponent variant
(pams-chat-ui chat/chat.component.ts line 14). -/
inductive BRole where
  | user
  | bot
deriving DecidableEq

/-- A transcript message of the ChatComponent variant.  The text is an
Option String because the next callback stores res.answer directly
(line 28), which is undefined when the response body lacks the field. -/
structure BMsg where
  role : BRole
  text : Option String
deriving DecidableEq

/-- Component state of the ChatComponent variant (lines 13-14): a draft and a
transcript, no loading flag. -/
structure ChatState where
  message : String
  messages : List BMsg
deriving DecidableEq

/-- Synchronous part of ChatComponent.send (lines 18-26): no-op when the
trimmed draft is empty, otherwise push the raw draft (untrimmed), clear it
and post the raw draft with no debug field. -/
def ChatComponent.send (s : ChatState) : ChatState × Option Request :=
  if trimStr s.message = "" then (s, none)
  else
    ({ message := "", messages := s.messages ++ [⟨BRole.user, some s.message⟩] },
     some ⟨apiUrl, ⟨s.message, none⟩, []⟩)

/-- The only callback of ChatComponent.send (lines 27-29): push the answer
field as it is, with no fallback. -/
def ChatComponent.handleNext (s : ChatState) (res : ChatResponse) : ChatState :=
  { s with messages := s.messages ++ [⟨BRole.bot, res.answer⟩] }

/-- Result of a ChatComponent send cycle: either a plain state, or a state
together with an observable error that no callback consumed. -/
inductive ChatOutcome where
  | ok : ChatState → ChatOutcome
  | unhandledFault : ChatState → ChatOutcome
deriving DecidableEq

/-- The state carried by a cycle outcome. -/
def ChatOutcome.state : ChatOutcome → ChatState
  | ChatOutcome.ok s => s
  | ChatOutcome.unhandledFault s => s

/-- A whole send cycle of the ChatComponent variant.  The subscribe call at
lines 27-29 passes only a next callback: a failed request runs no handler,
leaves the state as the synchronous part left it, and the observable error
escapes unhandled. -/
def ChatComponent.sendCycle (s : ChatState) (r : HttpResult) :
    ChatOutcome × Option Request :=
  match ChatComponent.send s with
  | (s₁, none) => (ChatOutcome.ok s₁, none)
  | (s₁, some req) =>
    match r with
    | HttpResult.success res => (ChatOutcome.ok (ChatComponent.handleNext s₁ res), some req)
    | HttpResult.failure _ => (ChatOutcome.unhandledFault s₁, some req)

/-- Component state of the simple question-and-answer AppComponent
(pams-chat-ui app.component.ts lines 32-33). -/
structure SimpleState where
  question : String
  answer : String
deriving DecidableEq

/-- Embedding of the simple AppComponent.send (app.component.ts lines 37-43):
there is no emptiness guard and no busy flag; the method always sets a pending
marker and issues the request through ChatServiceV0.ask. -/
def SimpleApp.send (s : SimpleState) : SimpleState × Option Request :=
  ({ s with answer := "⏳ En cours..." }, some (ChatServiceV0.ask s.question))

/-- The head of a dropWhile result never satisfies the dropped predicate. -/
lemma head_dropWhile_eq_false (p : Char → Bool) (l : List Char) (c : Char)
    (h : (l.dropWhile p).head? = some c) : p c = false := by
  induction l with
  | nil => simp [List.dropWhile] at h
  | cons a t ih =>
    rw [List.dropWhile_cons] at h
    by_cases hp : p a
    · rw [if_pos hp] at h
      exact ih h
    · rw [if_neg hp] at h
      simp only [List.head?_cons, Option.some.injEq] at h
      subst h
      exact Bool.not_eq_true _ |>.mp hp

/-- dropWhile only removes a front segment, so when the result is nonempty it
has the same last element as the input. -/
lemma getLast?_dropWhile (p : Char → Bool) (l : List Char)
    (h : l.dropWhile p ≠ []) : (l.dropWhile p).getLast? = l.getLast? := by
  induction l with
  | nil => simp [List.dropWhile] at h
  | cons a t ih =>
    rw [List.dropWhile_cons]
    rw [List.dropWhile_cons] at h
    by_cases hp : p a
    · rw [if_pos hp] at h ⊢
      rw [ih h]
      cases t with
      | nil => simp [List.dropWhile] at h
      | cons b u => rw [List.getLast?_cons_cons]
    · rw [if_neg hp]

/-- A trimmed character list starts with a non-whitespace character. -/
lemma trimList_head (l : List Char) (c : Char)
    (h : (trimList l).head? = some c) : isWs c = false := by
  unfold trimList at h
  rw [List.head?_reverse] at h
  have hne : (l.dropWhile isWs).reverse.dropWhile isWs ≠ [] := by
    intro he
    rw [he] at h
    simp at h
  rw [getLast?_dropWhile _ _ hne, List.getLast?_reverse] at h
  exact head_dropWhile_eq_false isWs _ c h

/-- A trimmed character list ends with a non-whitespace character. -/
lemma trimList_getLast (l : List Char) (c : Char)
    (h : (trimList l).getLast? = some c) : isWs c = false := by
  unfold trimList at h
  rw [List.getLast?_reverse] at h
  exact head_dropWhile_eq_false isWs _ c h

/-- Evaluation of an accepted submission in the full-transcript widget. -/
lemma AppComponent.send_accepted (s : AppState) (h : trimStr s.input ≠ "") :
    AppComponent.send s =
      ({ input := "", loading := true,
         messages := s.messages ++ [⟨Role.user, trimStr s.input⟩],
         lastUsed := s.lastUsed },
       some (ChatService.send (trimStr s.input) (some true))) := by
  unfold AppComponent.send
  simp only
  rw [if_neg h]

/-- Evaluation of a whole accepted cycle ending in failure. -/
lemma AppComponent.sendCycle_failure (s : AppState) (e : HttpError)
    (h : trimStr s.input ≠ "") :
    AppComponent.sendCycle s (HttpResult.failure e) =
      ({ input := "", loading := false,
         messages := s.messages ++ [⟨Role.user, trimStr s.input⟩,
                                    ⟨Role.assistant, "Erreur API"⟩],
         lastUsed := e.error },
       some (ChatService.send (trimStr s.input) (some true))) := by
  unfold AppComponent.sendCycle
  rw [AppComponent.send_accepted s h]
  simp [AppComponent.handleError]

/-- Evaluation of a whole accepted cycle ending in success. -/
lemma AppComponent.sendCycle_success (s : AppState) (res : ChatResponse)
    (h : trimStr s.input ≠ "") :
    AppComponent.sendCycle s (HttpResult.success res) =
      ({ input := "", loading := false,
         messages := s.messages ++ [⟨Role.user, trimStr s.input⟩,
                                    ⟨Role.assistant, res.answer.getD "—"⟩],
         lastUsed := res.used },
       some (ChatService.send (trimStr s.input) (some true))) := by
  unfold AppComponent.sendCycle
  rw [AppComponent.send_accepted s h]
  simp [AppComponent.handleNext]

/-- Evaluation of a rejected submission in the full-transcript widget. -/
lemma AppComponent.send_empty (s : AppState) (h : trimStr s.input = "") :
    AppComponent.send s = (s, none) := by
  unfold AppComponent.send
  simp only
  rw [if_pos h]

/-- A rejected submission makes the whole cycle a no-op. -/
lemma AppComponent.sendCycle_empty (s : AppState) (r : HttpResult)
    (h : trimStr s.input = "") :
    AppComponent.sendCycle s r = (s, none) := by
  unfold AppComponent.sendCycle
  rw [AppComponent.send_empty s h]

/-- Evaluation of a rejected submission in the ChatComponent variant. -/
lemma ChatComponent.send_empty_eq (c : ChatState) (h : trimStr c.message = "") :
    ChatComponent.send c = (c, none) := by
  unfold ChatComponent.send
  rw [if_pos h]

/-- Evaluation of an accepted submission in the ChatComponent variant. -/
lemma ChatComponent.send_accepted_eq (c : ChatState) (h : trimStr c.message ≠ "") :
    ChatComponent.send c =
      (⟨"", c.messages ++ [⟨BRole.user, some c.message⟩]⟩,
       some ⟨apiUrl, ⟨c.message, none⟩, []⟩) := by
  unfold ChatComponent.send
  rw [if_neg h]

/-- Evaluation of a ChatComponent cycle on an accepted submission that fails:
the error escapes unhandled and no bot message is appended. -/
lemma ChatComponent.sendCycle_failure_eq (c : ChatState) (e : HttpError)
    (h : trimStr c.message ≠ "") :
    ChatComponent.sendCycle c (HttpResult.failure e) =
      (ChatOutcome.unhandledFault ⟨"", c.messages ++ [⟨BRole.user, some c.message⟩]⟩,
       some ⟨apiUrl, ⟨c.message, none⟩, []⟩) := by
  unfold ChatComponent.sendCycle
  rw [ChatComponent.send_accepted_eq c h]

/-- Evaluation of a ChatComponent cycle on an accepted submission that
succeeds. -/
lemma ChatComponent.sendCycle_success_eq (c : ChatState) (res : ChatResponse)
    (h : trimStr c.message ≠ "") :
    ChatComponent.sendCycle c (HttpResult.success res) =
      (ChatOutcome.ok ⟨"", c.messages ++ [⟨BRole.user, some c.message⟩,
                                          ⟨BRole.bot, res.answer⟩]⟩,
       some ⟨apiUrl, ⟨c.message, none⟩, []⟩) := by
  unfold ChatComponent.sendCycle
  rw [ChatComponent.send_accepted_eq c h]
  simp [ChatComponent.handleNext]

/-- C1 counterexample: in the ChatComponent variant a failed request runs no
callback, so the cycle appends no assistant message at all and the failure
escapes as an unhandled observable error, contrary to the claim. -/
theorem C1_counterexample :
    (ChatComponent.sendCycle ⟨"hi", []⟩ (HttpResult.failure ⟨none⟩)).1
      = ChatOutcome.unhandledFault ⟨"", [⟨BRole.user, some "hi"⟩]⟩ := by
  decide

/-- C1 (amended): in the full-transcript widget a failed request appends
exactly one assistant message carrying the fixed string and clears the
loading flag, and both callbacks being installed, the failure never escapes
the cycle. -/
theorem C1_full_widget_failure (s : AppState) (e : HttpError)
    (h : trimStr s.input ≠ "") :
    (AppComponent.sendCycle s (HttpResult.failure e)).1.messages
      = s.messages ++ [⟨Role.user, trimStr s.input⟩, ⟨Role.assistant, "Erreur API"⟩]
    ∧ (AppComponent.sendCycle s (HttpResult.failure e)).1.loading = false := by
  rw [AppComponent.sendCycle_failure s e h]
  exact ⟨rfl, rfl⟩

/-- C1 witness: the amended statement evaluated at a concrete failing cycle. -/
theorem C1_witness :
    trimStr " hi " ≠ ""
    ∧ ((AppComponent.sendCycle ⟨" hi ", false, [], none⟩ (HttpResult.failure ⟨none⟩)).1.messages
        = ([] : List Msg) ++ [⟨Role.user, trimStr " hi "⟩, ⟨Role.assistant, "Erreur API"⟩]
      ∧ (AppComponent.sendCycle ⟨" hi ", false, [], none⟩ (HttpResult.failure ⟨none⟩)).1.loading
          = false) :=
  ⟨by decide, C1_full_widget_failure ⟨" hi ", false, [], none⟩ ⟨none⟩ (by decide)⟩

/-- C2 counterexample: the send method contains no busy guard, so calling it
on a state whose loading flag is true still issues an outbound request and
changes the transcript and the draft. -/
theorem C2_counterexample :
    (⟨"hi", true, [], none⟩ : AppState).loading = true
    ∧ AppComponent.send ⟨"hi", true, [], none⟩
        = (⟨"", true, [⟨Role.user, "hi"⟩], none⟩,
           some ⟨apiUrl, ⟨"hi", some true⟩, []⟩) := by
  exact ⟨rfl, by decide⟩

/-- C2 (amended): re-submission while busy is blocked at the template, whose
only submit control is disabled while loading, so a UI submission on a busy
state produces no outbound call and leaves the state unchanged. -/
theorem C2_busy_ui_guard (s : AppState) (h : s.loading = true) :
    AppComponent.uiSubmit s = (s, none) := by
  unfold AppComponent.uiSubmit
  rw [if_pos h]

/-- C2 witness: the UI guard evaluated on a concrete busy state. -/
theorem C2_witness :
    (⟨"hi", true, [], none⟩ : AppState).loading = true
    ∧ AppComponent.uiSubmit ⟨"hi", true, [], none⟩ = (⟨"hi", true, [], none⟩, none) :=
  ⟨rfl, C2_busy_ui_guard ⟨"hi", true, [], none⟩ rfl⟩

/-- C3 counterexample: the simple question-and-answer widget has no emptiness
guard, so submitting an empty draft still issues an outbound call. -/
theorem C3_counterexample :
    trimStr "" = "" ∧ (SimpleApp.send ⟨"", ""⟩).2 = some ⟨apiUrl, ⟨"", none⟩, []⟩ :=
  ⟨rfl, rfl⟩

/-- C3 (amended): in the two transcript widgets a draft whose trimmed value
is empty makes submit a complete no-op, with no state change and no outbound
call. -/
theorem C3_empty_draft_noop :
    (∀ s : AppState, trimStr s.input = "" → AppComponent.send s = (s, none))
    ∧ (∀ c : ChatState, trimStr c.message = "" → ChatComponent.send c = (c, none)) :=
  ⟨fun s h => AppComponent.send_empty s h, fun c h => ChatComponent.send_empty_eq c h⟩

/-- C3 witness: the no-op evaluated on concrete whitespace drafts. -/
theorem C3_witness :
    trimStr "  " = ""
    ∧ AppComponent.send ⟨"  ", false, [], none⟩ = (⟨"  ", false, [], none⟩, none)
    ∧ ChatComponent.send ⟨" ", []⟩ = (⟨" ", []⟩, none) :=
  ⟨by decide, C3_empty_draft_noop.1 ⟨"  ", false, [], none⟩ (by decide),
   C3_empty_draft_noop.2 ⟨" ", []⟩ (by decide)⟩

/-- C4 counterexample: the ChatComponent variant appends the answer field
with no fallback, so a response with the field absent appends a message whose
text is the absent value, not a non-empty placeholder. -/
theorem C4_counterexample :
    ChatComponent.handleNext ⟨"", [⟨BRole.user, some "q"⟩]⟩ ⟨none, none⟩
      = ⟨"", [⟨BRole.user, some "q"⟩, ⟨BRole.bot, none⟩]⟩ := by
  decide

/-- C4 (amended): the full-transcript widget appends the fixed non-empty
placeholder when the answer field is absent. -/
theorem C4_full_widget_fallback (s : AppState) (u : Option String) :
    (AppComponent.handleNext s ⟨none, u⟩).messages
      = s.messages ++ [⟨Role.assistant, "—"⟩]
    ∧ 0 < "—".length := by
  exact ⟨by simp [AppComponent.handleNext], by decide⟩

/-- C4 witness: the fallback evaluated on a concrete state. -/
theorem C4_witness :
    (AppComponent.handleNext ⟨"", true, [], none⟩ ⟨none, none⟩).messages
      = ([] : List Msg) ++ [⟨Role.assistant, "—"⟩]
    ∧ 0 < "—".length :=
  C4_full_widget_fallback ⟨"", true, [], none⟩ none

/-- C5: a successful response carrying an answer string makes the
full-transcript widget append exactly one assistant message with that text
and clear the loading flag. -/
theorem C5_success_appends_answer (s : AppState) (a : String) (u : Option String) :
    (AppComponent.handleNext s ⟨some a, u⟩).messages
      = s.messages ++ [⟨Role.assistant, a⟩]
    ∧ (AppComponent.handleNext s ⟨some a, u⟩).loading = false := by
  exact ⟨by simp [AppComponent.handleNext], rfl⟩

/-- C5 witness: the success handler evaluated on a concrete state with the
answer 42. -/
theorem C5_witness :
    (AppComponent.handleNext ⟨"", true, [⟨Role.user, "q"⟩], none⟩ ⟨some "42", none⟩).messages
      = [⟨Role.user, "q"⟩] ++ [⟨Role.assistant, "42"⟩]
    ∧ (AppComponent.handleNext ⟨"", true, [⟨Role.user, "q"⟩], none⟩ ⟨some "42", none⟩).loading
        = false :=
  C5_success_appends_answer ⟨"", true, [⟨Role.user, "q"⟩], none⟩ "42" none

/-- C6: an accepted submission clears the draft immediately, and after the
cycle completes with any outcome the draft is empty and the loading flag is
false. -/
theorem C6_cycle_clears (s : AppState) (h : trimStr s.input ≠ "") :
    (AppComponent.send s).1.input = ""
    ∧ ∀ r : HttpResult, (AppComponent.sendCycle s r).1.input = ""
        ∧ (AppComponent.sendCycle s r).1.loading = false := by
  refine ⟨?_, ?_⟩
  · rw [AppComponent.send_accepted s h]
  · intro r
    cases r with
    | success res =>
      rw [AppComponent.sendCycle_success s res h]
      exact ⟨rfl, rfl⟩
    | failure e =>
      rw [AppComponent.sendCycle_failure s e h]
      exact ⟨rfl, rfl⟩

/-- C6 witness: the invariant evaluated on a concrete successful cycle. -/
theorem C6_witness :
    trimStr "hi" ≠ ""
    ∧ (AppComponent.send ⟨"hi", false, [], none⟩).1.input = ""
    ∧ ((AppComponent.sendCycle ⟨"hi", false, [], none⟩
          (HttpResult.success ⟨some "42", none⟩)).1.input = ""
       ∧ (AppComponent.sendCycle ⟨"hi", false, [], none⟩
            (HttpResult.success ⟨some "42", none⟩)).1.loading = false) :=
  ⟨by decide, (C6_cycle_clears ⟨"hi", false, [], none⟩ (by decide)).1,
   (C6_cycle_clears ⟨"hi", false, [], none⟩ (by decide)).2
     (HttpResult.success ⟨some "42", none⟩)⟩

/-- C7: an accepted submission appends the user message and issues exactly
one POST request whose payload carries the message text and the debug
boolean, with no further attempt in the model. -/
theorem C7_accepted_submission (s : AppState) (h : trimStr s.input ≠ "")
    (hb : s.loading = false) :
    AppComponent.uiSubmit s =
      ({ input := "", loading := true,
         messages := s.messages ++ [⟨Role.user, trimStr s.input⟩],
         lastUsed := s.lastUsed },
       some ⟨apiUrl, ⟨trimStr s.input, some true⟩, []⟩) := by
  have hb' : ¬ (s.loading = true) := by
    rw [hb]
    exact Bool.false_ne_true
  unfold AppComponent.uiSubmit
  rw [if_neg hb', AppComponent.send_accepted s h]
  rfl

/-- C7 witness: the accepted submission evaluated on a concrete idle state. -/
theorem C7_witness :
    trimStr "hi" ≠ ""
    ∧ (⟨"hi", false, [], none⟩ : AppState).loading = false
    ∧ AppComponent.uiSubmit ⟨"hi", false, [], none⟩
        = (⟨"", true, [⟨Role.user, trimStr "hi"⟩], none⟩,
           some ⟨apiUrl, ⟨trimStr "hi", some true⟩, []⟩) :=
  ⟨by decide, rfl, C7_accepted_submission ⟨"hi", false, [], none⟩ (by decide) rfl⟩

/-- C8: every operation of the two transcript widgets only appends to the
message list, so the earlier transcript is always a prefix of the later
one. -/
theorem C8_append_only :
    (∀ s : AppState, ∃ t, (AppComponent.send s).1.messages = s.messages ++ t)
    ∧ (∀ s r, ∃ t, (AppComponent.sendCycle s r).1.messages = s.messages ++ t)
    ∧ (∀ s res, ∃ t, (AppComponent.handleNext s res).messages = s.messages ++ t)
    ∧ (∀ s e, ∃ t, (AppComponent.handleError s e).messages = s.messages ++ t)
    ∧ (∀ c : ChatState, ∃ t, (ChatComponent.send c).1.messages = c.messages ++ t)
    ∧ (∀ c r, ∃ t, (ChatOutcome.state (ChatComponent.sendCycle c r).1).messages
        = c.messages ++ t)
    ∧ (∀ c res, ∃ t, (ChatComponent.handleNext c res).messages = c.messages ++ t) := by
  refine ⟨?_, ?_, ?_, ?_, ?_, ?_, ?_⟩
  · intro s
    by_cases h : trimStr s.input = ""
    · exact ⟨[], by rw [AppComponent.send_empty s h]; simp⟩
    · exact ⟨[⟨Role.user, trimStr s.input⟩], by rw [AppComponent.send_accepted s h]⟩
  · intro s r
    by_cases h : trimStr s.input = ""
    · exact ⟨[], by rw [AppComponent.sendCycle_empty s r h]; simp⟩
    · cases r with
      | success res =>
        exact ⟨[⟨Role.user, trimStr s.input⟩, ⟨Role.assistant, res.answer.getD "—"⟩],
          by rw [AppComponent.sendCycle_success s res h]⟩
      | failure e =>
        exact ⟨[⟨Role.user, trimStr s.input⟩, ⟨Role.assistant, "Erreur API"⟩],
          by rw [AppComponent.sendCycle_failure s e h]⟩
  · intro s res
    exact ⟨[⟨Role.assistant, res.answer.getD "—"⟩], by simp [AppComponent.handleNext]⟩
  · intro s e
    exact ⟨[⟨Role.assistant, "Erreur API"⟩], by simp [AppComponent.handleError]⟩
  · intro c
    by_cases h : trimStr c.message = ""
    · exact ⟨[], by rw [ChatComponent.send_empty_eq c h]; simp⟩
    · exact ⟨[⟨BRole.user, some c.message⟩], by rw [ChatComponent.send_accepted_eq c h]⟩
  · intro c r
    by_cases h : trimStr c.message = ""
    · refine ⟨[], ?_⟩
      unfold ChatComponent.sendCycle
      rw [ChatComponent.send_empty_eq c h]
      simp [ChatOutcome.state]
    · cases r with
      | success res =>
        exact ⟨[⟨BRole.user, some c.message⟩, ⟨BRole.bot, res.answer⟩],
          by rw [ChatComponent.sendCycle_success_eq c res h]; simp [ChatOutcome.state]⟩
      | failure e =>
        exact ⟨[⟨BRole.user, some c.message⟩],
          by rw [ChatComponent.sendCycle_failure_eq c e h]; simp [ChatOutcome.state]⟩
  · intro c res
    exact ⟨[⟨BRole.bot, res.answer⟩], by simp [ChatComponent.handleNext]⟩

/-- C8 witness: the append-only step evaluated on a concrete submission. -/
theorem C8_witness :
    ∃ t, (AppComponent.send ⟨"hi", false, [], none⟩).1.messages = ([] : List Msg) ++ t :=
  C8_append_only.1 ⟨"hi", false, [], none⟩

/-- C9: the user message appended by the full-transcript widget carries the
trimmed draft, and a trimmed string never starts or ends with a whitespace
character. -/
theorem C9_user_msg_trimmed (s : AppState) (h : trimStr s.input ≠ "") :
    (AppComponent.send s).1.messages = s.messages ++ [⟨Role.user, trimStr s.input⟩]
    ∧ (∀ c, (trimStr s.input).data.head? = some c → isWs c = false)
    ∧ (∀ c, (trimStr s.input).data.getLast? = some c → isWs c = false) := by
  refine ⟨?_, ?_, ?_⟩
  · rw [AppComponent.send_accepted s h]
  · intro c hc
    exact trimList_head s.input.data c hc
  · intro c hc
    exact trimList_getLast s.input.data c hc

/-- C9 witness: the trimming evaluated on a concrete padded draft. -/
theorem C9_witness :
    trimStr " hi " ≠ ""
    ∧ (AppComponent.send ⟨" hi ", false, [], none⟩).1.messages
        = ([] : List Msg) ++ [⟨Role.user, trimStr " hi "⟩] :=
  ⟨by decide, (C9_user_msg_trimmed ⟨" hi ", false, [], none⟩ (by decide)).1⟩

/-- C10: the two services that take a debug argument always put a debug field
in the payload, false when the caller omits the argument, and the
full-transcript widget always submits with debug true. -/
theorem C10_debug_always_present :
    (∀ m, (ChatService.send m none).payload.debug = some false)
    ∧ (∀ m d, (ChatService.send m (some d)).payload.debug = some d)
    ∧ (∀ m o, ((ChatService.send m o).payload.debug).isSome = true)
    ∧ (∀ m, (ChatApiService.chat m none).payload.debug = some false)
    ∧ (∀ m d, (ChatApiService.chat m (some d)).payload.debug = some d)
    ∧ (∀ m o, ((ChatApiService.chat m o).payload.debug).isSome = true)
    ∧ (∀ s : AppState, (AppComponent.send s).2 = none
        ∨ (AppComponent.send s).2
            = some (ChatService.send (trimStr s.input) (some true))) := by
  refine ⟨fun m => rfl, fun m d => rfl, fun m o => rfl, fun m => rfl,
    fun m d => rfl, fun m o => rfl, ?_⟩
  intro s
  by_cases h : trimStr s.input = ""
  · exact Or.inl (by rw [AppComponent.send_empty s h])
  · exact Or.inr (by rw [AppComponent.send_accepted s h])

/-- C10 witness: the payload shape evaluated at concrete calls. -/
theorem C10_witness :
    (ChatService.send "q" none).payload.debug = some false
    ∧ ((AppComponent.send ⟨"hi", false, [], none⟩).2 = none
       ∨ (AppComponent.send ⟨"hi", false, [], none⟩).2
           = some (ChatService.send (trimStr "hi") (some true))) :=
  ⟨C10_debug_always_present.1 "q",
   C10_debug_always_present.2.2.2.2.2.2 ⟨"hi", false, [], none⟩⟩
